import Mathlib

/-!
Shallow embedding of the Modbus-RTU transaction engine and fault-tolerant
polling loop of the dc_monitoring_stack repository (src/util/pzem.py,
src/scripts/poll_to_influx.py, src/config/pzem.py), with theorems checking
the specification's claims against it.

Modelling conventions:
* bytes are natural numbers, on-wire frames are `List Nat`;
* the serial stream is deterministic: the bytes the device will send are held
  in a `pending` list (reads take from its front), written bytes accumulate in
  a `written` transcript;
* Python floats are modelled as exact rationals;
* exceptions are modelled with `Except`, one error constructor per raise site.
-/

namespace DCMon

/-- One LSB-first CRC round of `crc16_modbus` (src/util/pzem.py):
crc becomes (crc >> 1) ^ 0xA001 when the low bit is set, else crc >> 1. -/
def crcRound (crc : Nat) : Nat :=
  if crc &&& 1 = 1 then (crc >>> 1) ^^^ 0xA001 else crc >>> 1

/-- Per-byte step of `crc16_modbus`: xor the byte in, then 8 CRC rounds. -/
def crcByte (crc b : Nat) : Nat := crcRound^[8] (crc ^^^ b)

/-- Model of `crc16_modbus(data)` from src/util/pzem.py: poly 0xA001, initial value
0xFFFF, result masked to 16 bits. -/
def crc16_modbus (data : List Nat) : Nat :=
  (data.foldl crcByte 0xFFFF) &&& 0xFFFF

/-- Model of `append_crc(data)` from src/util/pzem.py with the default little-endian
CRC order: append the CRC low byte, then the high byte. -/
def append_crc (data : List Nat) : List Nat :=
  let crc := crc16_modbus data
  let lo := crc &&& 0xFF
  let hi := (crc >>> 8) &&& 0xFF
  data ++ [lo, hi]

/-- Model of `_check_crc(frame)` from src/util/pzem.py: frames shorter than 3 bytes are
invalid; otherwise recompute the CRC over all but the last two bytes and
compare with the trailing little-endian CRC field. -/
def check_crc (frame : List Nat) : Bool :=
  if frame.length < 3 then false
  else
    let data := frame.take (frame.length - 2)
    let rx_lo := frame.getD (frame.length - 2) 0
    let rx_hi := frame.getD (frame.length - 1) 0
    let rx := rx_lo ||| (rx_hi <<< 8)
    rx == crc16_modbus data

theorem crc16_modbus_lt (data : List Nat) : crc16_modbus data < 65536 :=
  Nat.lt_succ_of_le Nat.and_le_right

theorem and_255_eq_mod (x : Nat) : x &&& 255 = x % 256 := by
  have h := Nat.and_pow_two_sub_one_eq_mod x 8
  norm_num at h
  exact h

theorem reassemble_bytes {c : Nat} (h : c < 65536) :
    (c &&& 255) ||| (((c >>> 8) &&& 255) <<< 8) = c := by
  have h256 : (2 : Nat) ^ 8 = 256 := by norm_num
  have hdiv : c >>> 8 < 256 := by
    rw [Nat.shiftRight_eq_div_pow, h256]
    omega
  have h2 : (c >>> 8) &&& 255 = c >>> 8 := by
    rw [and_255_eq_mod]
    exact Nat.mod_eq_of_lt hdiv
  rw [h2, and_255_eq_mod]
  have hlow : c % 256 = c &&& 255 := (and_255_eq_mod c).symm
  rw [hlow]
  apply Nat.eq_of_testBit_eq
  intro i
  simp only [Nat.testBit_or, Nat.testBit_and, Nat.testBit_shiftLeft,
    Nat.testBit_shiftRight]
  have h255 : Nat.testBit 255 i = decide (i < 8) := by
    have he : (255 : Nat) = 2 ^ 8 - 1 := by norm_num
    rw [he, Nat.testBit_two_pow_sub_one]
  rw [h255]
  by_cases hi : i < 8
  · simp [hi, Nat.not_le.mpr hi]
  · have h8 : 8 + (i - 8) = i := by omega
    simp [hi, Nat.le_of_not_lt hi, h8]

theorem getD_append_self (l : List Nat) (a b : Nat) :
    (l ++ [a, b]).getD l.length 0 = a := by
  rw [List.getD_eq_getElem?_getD, List.getElem?_append_right (Nat.le_refl _)]
  simp

theorem getD_append_succ (l : List Nat) (a b : Nat) :
    (l ++ [a, b]).getD (l.length + 1) 0 = b := by
  rw [List.getD_eq_getElem?_getD,
    List.getElem?_append_right (Nat.le_succ_of_le (Nat.le_refl _))]
  simp

/-- C1 (amended): for every nonempty byte sequence b, verifying the CRC of
append_crc(b) succeeds: check_crc (append_crc b) = true. -/
theorem check_crc_append_crc (b : List Nat) (hb : b ≠ []) :
    check_crc (append_crc b) = true := by
  have hlen : 1 ≤ b.length := by
    cases b with
    | nil => exact absurd rfl hb
    | cons x xs => exact Nat.succ_le_succ (Nat.zero_le _)
  unfold check_crc append_crc
  have hl : (b ++ [crc16_modbus b &&& 0xFF, (crc16_modbus b >>> 8) &&& 0xFF]).length
      = b.length + 2 := by simp
  rw [hl]
  have hnlt : ¬ (b.length + 2 < 3) := by omega
  rw [if_neg hnlt]
  have hsub : b.length + 2 - 2 = b.length := by omega
  have hsub1 : b.length + 2 - 1 = b.length + 1 := by omega
  rw [hsub, hsub1, List.take_left' rfl, getD_append_self, getD_append_succ]
  simp only [beq_iff_eq]
  exact reassemble_bytes (crc16_modbus_lt b)

/-- C1 witness: the amended universal statement at a concrete nonempty input. -/
theorem check_crc_append_crc_witness :
    check_crc (append_crc [1, 4, 0, 0, 0, 8]) = true :=
  check_crc_append_crc [1, 4, 0, 0, 0, 8] (by decide)

/-- C1 counterexample: on the empty byte sequence the claim fails — the
2-byte frame produced by append_crc is below check_crc's 3-byte minimum, so
verification returns false, not true. -/
theorem check_crc_append_crc_empty : check_crc (append_crc []) = false := by
  decide

/-- Model of `PzemReading` (src/util/pzem.py), Python floats modelled as exact
rationals. -/
structure PzemReading where
  unit_id : Nat
  voltage : ℚ
  current : ℚ
  power : ℚ
  energy_wh : ℚ
  raw_hv : Nat
  raw_lv : Nat
  raw_regs : List Nat
deriving DecidableEq

/-- The register-to-reading decode step of `read_pzem` (src/util/pzem.py):
destructure the 8 registers `[v, i, pL, pH, eL, eH, hv, lv]` and scale.
Any other register count fails Python's tuple unpacking, modelled as none. -/
def decode_pzem_reading (unit_id : Nat) : List Nat → Option PzemReading
  | [raw_v, raw_i, raw_pL, raw_pH, raw_eL, raw_eH, raw_hv, raw_lv] =>
    some {
      unit_id := unit_id
      voltage := (raw_v : ℚ) / 100
      current := (raw_i : ℚ) / 100
      power := (((raw_pH <<< 16) ||| raw_pL : Nat) : ℚ) / 10
      energy_wh := (((raw_eH <<< 16) ||| raw_eL : Nat) : ℚ)
      raw_hv := raw_hv
      raw_lv := raw_lv
      raw_regs := [raw_v, raw_i, raw_pL, raw_pH, raw_eL, raw_eH, raw_hv, raw_lv] }
  | _ => none

/-- C2 (amended): decoding 8 registers yields voltage = v/100,
current = i/100, power = ((pHi<<16)|pLo)/10, energy_wh = (eHi<<16)|eLo, with
hv and lv passed through; at the spec's worked example the decoded power is
13207.2 W (the example's 13127.2 miscomputes (2<<16)|1000, which is 132072,
not 131272), while voltage 123.45, current 2.50 and energy 66036 stand. -/
theorem decode_pzem_reading_spec (u v i pL pH eL eH hv lv : Nat) :
    decode_pzem_reading u [v, i, pL, pH, eL, eH, hv, lv]
      = some ⟨u, (v : ℚ)/100, (i : ℚ)/100, (((pH <<< 16) ||| pL : Nat) : ℚ)/10,
          (((eH <<< 16) ||| eL : Nat) : ℚ), hv, lv, [v, i, pL, pH, eL, eH, hv, lv]⟩
    ∧ decode_pzem_reading 1 [12345, 250, 1000, 2, 500, 1, 0, 0]
      = some ⟨1, 123.45, 2.5, 13207.2, 66036, 0, 0,
          [12345, 250, 1000, 2, 500, 1, 0, 0]⟩ := by
  refine ⟨rfl, ?_⟩
  have h1 : (2 <<< 16 ||| 1000 : Nat) = 132072 := by decide
  have h2 : (1 <<< 16 ||| 500 : Nat) = 66036 := by decide
  simp only [decode_pzem_reading, h1, h2, Option.some.injEq, PzemReading.mk.injEq]
  norm_num

/-- C2 counterexample: at the spec's worked example the decoded power is
13207.2 W, not the 13127.2 W the claim states. -/
theorem decode_pzem_reading_power_cex :
    (decode_pzem_reading 1 [12345, 250, 1000, 2, 500, 1, 0, 0]).map
        PzemReading.power
      = some (13207.2 : ℚ) ∧ (13207.2 : ℚ) ≠ (13127.2 : ℚ) := by
  constructor
  · have h1 : (2 <<< 16 ||| 1000 : Nat) = 132072 := by decide
    simp only [decode_pzem_reading, h1, Option.map, Option.some.injEq]
    norm_num
  · norm_num

/-- Model of `_should_log_silence(streak)` from src/scripts/poll_to_influx.py. -/
def should_log_silence (streak : Nat) : Bool :=
  if streak = 1 ∨ streak = 5 ∨ streak = 10 ∨ streak = 30 ∨ streak = 60 ∨
      streak = 120 ∨ streak = 300 then true
  else decide (0 < streak) && decide (streak % 600 = 0)

/-- C6: the silence-log throttle returns true exactly at streak counts
1, 5, 10, 30, 60, 120, 300 and the positive multiples of 600, and false at
every other count. -/
theorem should_log_silence_iff (n : Nat) :
    should_log_silence n = true ↔
      (n = 1 ∨ n = 5 ∨ n = 10 ∨ n = 30 ∨ n = 60 ∨ n = 120 ∨ n = 300
        ∨ (0 < n ∧ n % 600 = 0)) := by
  unfold should_log_silence
  split
  · rename_i h
    simp only [true_iff]
    tauto
  · rename_i h
    simp only [Bool.and_eq_true, decide_eq_true_eq]
    tauto

/-- Deterministic serial-stream model: `pending` holds the bytes the device
is going to send (reads take from its front, fewer bytes meaning timeout),
`written` is the transcript of bytes written so far.  The source's
best-effort buffer flush is a no-op here: the model has no stale bytes,
`pending` is the upcoming reply. -/
structure SerialState where
  written : List Nat
  pending : List Nat
deriving DecidableEq

/-- Model of `ABNORMAL_CODES` from src/config/pzem.py. -/
def ABNORMAL_CODES (code : Nat) : Option String :=
  if code = 0x01 then some "Illegal function"
  else if code = 0x02 then some "Illegal address"
  else if code = 0x03 then some "Illegal data"
  else if code = 0x04 then some "Slave error"
  else none

/-- Model of `ABNORMAL_CODES.get(code, fallback)` as used at every raise site; the
source's fallback interpolates the raw code in hex, abbreviated here. -/
def abnormalMessage (code : Nat) : String :=
  (ABNORMAL_CODES code).getD "Unknown abnormal code"

/-- Error outcomes of `_rtu_read_registers` (src/util/pzem.py), one
constructor per raise site: the first three are the ValueError validations,
the rest the PzemModbusError raises in source order. -/
inductive RtuReadError
  | invalidUnitId
  | invalidFunctionCode
  | invalidAddrCount
  | noResponse
  | unexpectedResponder (b : Nat)
  | truncatedException
  | badCrcException
  | deviceException (code : Nat) (msg : String)
  | unexpectedFunctionCode (b : Nat)
  | truncatedData
  | badCrcData
  | oddDataLength
  | tooFewRegisters (got : Nat)
deriving DecidableEq

/-- Big-endian 16-bit register decoding of the response data bytes:
`(data[i] << 8) | data[i+1]` over consecutive pairs. -/
def decode_regs : List Nat → List Nat
  | b0 :: b1 :: rest => ((b0 <<< 8) ||| b1) :: decode_regs rest
  | _ => []

/-- Model of `_rtu_read_registers` (src/util/pzem.py) over the serial model.  A read
of n bytes takes `min n |pending|` bytes from the front of `pending`
(`_read_exact` returns fewer bytes on timeout). -/
def rtu_read_registers (s : SerialState)
    (unit_id function_code start_addr count : Nat) :
    Except RtuReadError (List Nat) × SerialState :=
  if ¬ (1 ≤ unit_id ∧ unit_id ≤ 247) then (.error .invalidUnitId, s)
  else if ¬ (function_code = 0x03 ∨ function_code = 0x04) then
    (.error .invalidFunctionCode, s)
  else if ¬ (start_addr ≤ 0xFFFF ∧ 1 ≤ count ∧ count ≤ 0x7D) then
    (.error .invalidAddrCount, s)
  else
    let req := append_crc [unit_id, function_code,
      (start_addr >>> 8) &&& 0xFF, start_addr &&& 0xFF,
      (count >>> 8) &&& 0xFF, count &&& 0xFF]
    let s1 : SerialState := ⟨s.written ++ req, s.pending⟩
    let hdr := s1.pending.take 3
    let s2 : SerialState := ⟨s1.written, s1.pending.drop 3⟩
    if hdr.length < 3 then (.error .noResponse, s2)
    else if hdr.getD 0 0 ≠ unit_id then
      (.error (.unexpectedResponder (hdr.getD 0 0)), s2)
    else if hdr.getD 1 0 = (function_code ||| 0x80) then
      let tail := s2.pending.take 2
      let s3 : SerialState := ⟨s2.written, s2.pending.drop 2⟩
      let frame := hdr ++ tail
      if frame.length < 5 then (.error .truncatedException, s3)
      else if ¬ check_crc frame then (.error .badCrcException, s3)
      else
        (.error (.deviceException (frame.getD 2 0)
          (abnormalMessage (frame.getD 2 0))), s3)
    else if hdr.getD 1 0 ≠ function_code then
      (.error (.unexpectedFunctionCode (hdr.getD 1 0)), s2)
    else
      let bytecount := hdr.getD 2 0
      let tail := s2.pending.take (bytecount + 2)
      let s3 : SerialState := ⟨s2.written, s2.pending.drop (bytecount + 2)⟩
      let frame := hdr ++ tail
      if frame.length < 3 + bytecount + 2 then (.error .truncatedData, s3)
      else if ¬ check_crc frame then (.error .badCrcData, s3)
      else
        let data := (frame.drop 3).take bytecount
        if data.length % 2 ≠ 0 then (.error .oddDataLength, s3)
        else
          let regs := decode_regs data
          if regs.length < count then
            (.error (.tooFewRegisters regs.length), s3)
          else (.ok (regs.take count), s3)

/-- True on a successful (non-raising) outcome. -/
def isOkResult {ε α : Type} : Except ε α → Bool
  | .ok _ => true
  | .error _ => false

instance exceptDecEq {ε α : Type} [DecidableEq ε] [DecidableEq α] :
    DecidableEq (Except ε α) := fun x y =>
  match x, y with
  | .ok a, .ok b =>
    if h : a = b then isTrue (by rw [h]) else isFalse (by simp [h])
  | .error a, .error b =>
    if h : a = b then isTrue (by rw [h]) else isFalse (by simp [h])
  | .ok _, .error _ => isFalse (by simp)
  | .error _, .ok _ => isFalse (by simp)

/-- True exactly on the device-exception outcome of `_rtu_read_registers`. -/
def isDeviceExceptionResult : Except RtuReadError (List Nat) → Bool
  | .error (.deviceException _ _) => true
  | _ => false

/-- True exactly on the ValueError (precondition) outcomes of
`_rtu_read_registers`. -/
def isValidationResult : Except RtuReadError (List Nat) → Bool
  | .error .invalidUnitId => true
  | .error .invalidFunctionCode => true
  | .error .invalidAddrCount => true
  | _ => false

/-- C5: calling the read-registers transaction with unit_id outside [1,247],
function_code outside {0x03, 0x04}, or count outside [1,125] fails with a
validation error and leaves the stream untouched: nothing written, nothing
consumed. -/
theorem rtu_read_registers_validation (s : SerialState) (u fc sa cnt : Nat)
    (h : ¬ (1 ≤ u ∧ u ≤ 247) ∨ ¬ (fc = 0x03 ∨ fc = 0x04)
      ∨ ¬ (1 ≤ cnt ∧ cnt ≤ 125)) :
    isValidationResult (rtu_read_registers s u fc sa cnt).1 = true
    ∧ (rtu_read_registers s u fc sa cnt).2 = s := by
  unfold rtu_read_registers
  by_cases h1 : ¬ (1 ≤ u ∧ u ≤ 247)
  · rw [if_pos h1]
    exact ⟨rfl, rfl⟩
  · rw [if_neg h1]
    by_cases h2 : ¬ (fc = 0x03 ∨ fc = 0x04)
    · rw [if_pos h2]
      exact ⟨rfl, rfl⟩
    · rw [if_neg h2]
      by_cases h3 : ¬ (sa ≤ 0xFFFF ∧ 1 ≤ cnt ∧ cnt ≤ 0x7D)
      · rw [if_pos h3]
        exact ⟨rfl, rfl⟩
      · exfalso
        rw [not_not] at h1 h2 h3
        rcases h with h' | h' | h'
        · exact h' h1
        · exact h' h2
        · exact h' ⟨h3.2.1, h3.2.2⟩

/-- C5 witness: unit id 0 is rejected with a validation error and the stream
state is unchanged. -/
theorem rtu_read_registers_validation_witness :
    isValidationResult (rtu_read_registers ⟨[], []⟩ 0 0x04 0 8).1 = true
    ∧ (rtu_read_registers ⟨[], []⟩ 0 0x04 0 8).2 = (⟨[], []⟩ : SerialState) :=
  rtu_read_registers_validation ⟨[], []⟩ 0 0x04 0 8 (Or.inl (by decide))

/-- C3 (amended): a read-registers response whose second header byte is
function_code | 0x80 always fails and never yields a register array; when
the complete 5-byte exception frame arrives with a valid CRC the error is
the device exception whose code is byte 3 of the reply, decoded via the
fixed table (0x01 illegal function, 0x02 illegal address, 0x03 illegal
data, 0x04 slave error, unknown codes falling back to a raw report); a
truncated exception frame fails with a truncation error and a CRC-invalid
one with a CRC error instead. -/
theorem rtu_read_registers_exception (s : SerialState) (u fc sa cnt exc : Nat)
    (rest : List Nat)
    (hu : 1 ≤ u ∧ u ≤ 247) (hfc : fc = 0x03 ∨ fc = 0x04)
    (hsc : sa ≤ 0xFFFF ∧ 1 ≤ cnt ∧ cnt ≤ 0x7D)
    (hp : s.pending = u :: (fc ||| 0x80) :: exc :: rest) :
    isOkResult (rtu_read_registers s u fc sa cnt).1 = false
    ∧ (rest.length < 2 →
        (rtu_read_registers s u fc sa cnt).1 = .error .truncatedException)
    ∧ (2 ≤ rest.length →
        check_crc (u :: (fc ||| 0x80) :: exc :: rest.take 2) = false →
        (rtu_read_registers s u fc sa cnt).1 = .error .badCrcException)
    ∧ (2 ≤ rest.length →
        check_crc (u :: (fc ||| 0x80) :: exc :: rest.take 2) = true →
        (rtu_read_registers s u fc sa cnt).1
          = .error (.deviceException exc (abnormalMessage exc)))
    ∧ abnormalMessage 0x01 = "Illegal function"
    ∧ abnormalMessage 0x02 = "Illegal address"
    ∧ abnormalMessage 0x03 = "Illegal data"
    ∧ abnormalMessage 0x04 = "Slave error" := by
  match rest with
  | [] =>
    have key : (rtu_read_registers s u fc sa cnt).1
        = .error .truncatedException := by
      unfold rtu_read_registers
      rw [if_neg (not_not_intro hu), if_neg (not_not_intro hfc),
        if_neg (not_not_intro hsc), hp]
      simp
    refine ⟨by rw [key]; rfl, fun _ => key, ?_, ?_, rfl, rfl, rfl, rfl⟩
    · intro h2 _
      simp at h2
    · intro h2 _
      simp at h2
  | [a] =>
    have key : (rtu_read_registers s u fc sa cnt).1
        = .error .truncatedException := by
      unfold rtu_read_registers
      rw [if_neg (not_not_intro hu), if_neg (not_not_intro hfc),
        if_neg (not_not_intro hsc), hp]
      simp
    refine ⟨by rw [key]; rfl, fun _ => key, ?_, ?_, rfl, rfl, rfl, rfl⟩
    · intro h2 _
      simp at h2
    · intro h2 _
      simp at h2
  | a :: b :: rest' =>
    by_cases hc : check_crc (u :: (fc ||| 0x80) :: exc :: [a, b]) = true
    · have key : (rtu_read_registers s u fc sa cnt).1
          = .error (.deviceException exc (abnormalMessage exc)) := by
        unfold rtu_read_registers
        rw [if_neg (not_not_intro hu), if_neg (not_not_intro hfc),
          if_neg (not_not_intro hsc), hp]
        simp [hc]
      refine ⟨by rw [key]; rfl, ?_, ?_, fun _ _ => key, rfl, rfl, rfl, rfl⟩
      · intro h2
        simp at h2
        omega
      · intro _ hcrc
        have hcrc' : check_crc (u :: (fc ||| 0x80) :: exc :: [a, b]) = false :=
          hcrc
        rw [hc] at hcrc'
        cases hcrc'
    · have hc' : check_crc (u :: (fc ||| 0x80) :: exc :: [a, b]) = false :=
        Bool.eq_false_iff.mpr hc
      have key : (rtu_read_registers s u fc sa cnt).1
          = .error .badCrcException := by
        unfold rtu_read_registers
        rw [if_neg (not_not_intro hu), if_neg (not_not_intro hfc),
          if_neg (not_not_intro hsc), hp]
        simp [hc']
      refine ⟨by rw [key]; rfl, ?_, fun _ _ => key, ?_, rfl, rfl, rfl, rfl⟩
      · intro h2
        simp at h2
        omega
      · intro _ hcrc
        have hcrc' : check_crc (u :: (fc ||| 0x80) :: exc :: [a, b]) = true :=
          hcrc
        rw [hc'] at hcrc'
        cases hcrc'

/-- C3 witness: a complete, CRC-valid exception reply with code 0x02 fails
with the device exception "Illegal address", code taken from byte 3. -/
theorem rtu_read_registers_exception_witness :
    (rtu_read_registers ⟨[], append_crc [1, 0x84, 2]⟩ 1 0x04 0 8).1
      = .error (.deviceException 2 (abnormalMessage 2)) :=
  (rtu_read_registers_exception ⟨[], append_crc [1, 0x84, 2]⟩ 1 0x04 0 8 2
    ((append_crc [1, 0x84, 2]).drop 3) (by decide) (by decide) (by decide)
    (by decide)).2.2.2.1 (by decide) (by decide)

/-- C3 counterexample: a response whose second header byte is fc | 0x80 but
whose 5-byte exception frame has an invalid CRC fails with a CRC protocol
error, not a device-exception error carrying byte 3's code. -/
theorem rtu_read_registers_exception_cex :
    (rtu_read_registers ⟨[], [1, 0x84, 1, 0, 0]⟩ 1 0x04 0 8).1
        = .error .badCrcException
    ∧ isDeviceExceptionResult
        (rtu_read_registers ⟨[], [1, 0x84, 1, 0, 0]⟩ 1 0x04 0 8).1 = false := by
  decide

/-- Error outcomes of `_rtu_write_single_register` (src/util/pzem.py), one
constructor per raise site, in source order. -/
inductive RtuWriteError
  | invalidUnitId
  | invalidAddrValue
  | truncatedReply
  | badCrcExceptionReply
  | deviceException (code : Nat) (msg : String)
  | truncatedEcho
  | badCrcEcho
  | commandMismatch
deriving DecidableEq

/-- The FC06 request frame built by `_rtu_write_single_register`. -/
def write_request (unit_id addr value : Nat) : List Nat :=
  append_crc [unit_id, 0x06, (addr >>> 8) &&& 0xFF, addr &&& 0xFF,
    (value >>> 8) &&& 0xFF, value &&& 0xFF]

/-- Model of `_rtu_write_single_register` (src/util/pzem.py) over the serial model.
The source's re-read inside the exception branch is dead code (that branch
is guarded by length ≥ 5) and is omitted; the re-read of the echo tail is
kept, though in this deterministic model a second read after a short first
read always returns no further bytes. -/
def rtu_write_single_register (s : SerialState) (unit_id addr value : Nat) :
    Except RtuWriteError Unit × SerialState :=
  if ¬ (1 ≤ unit_id ∧ unit_id ≤ 247) then (.error .invalidUnitId, s)
  else if ¬ (addr ≤ 0xFFFF ∧ value ≤ 0xFFFF) then (.error .invalidAddrValue, s)
  else
    let req := write_request unit_id addr value
    let s1 : SerialState := ⟨s.written ++ req, s.pending⟩
    let resp := s1.pending.take 8
    let s2 : SerialState := ⟨s1.written, s1.pending.drop 8⟩
    if resp.length < 5 then (.error .truncatedReply, s2)
    else if resp.getD 1 0 = 0x86 then
      if ¬ check_crc (resp.take 5) then (.error .badCrcExceptionReply, s2)
      else
        (.error (.deviceException (resp.getD 2 0)
          (abnormalMessage (resp.getD 2 0))), s2)
    else
      let extra := s2.pending.take (8 - resp.length)
      let s3 : SerialState := ⟨s2.written, s2.pending.drop (8 - resp.length)⟩
      let resp2 := resp ++ extra
      if resp2.length ≠ 8 then (.error .truncatedEcho, s3)
      else if ¬ check_crc resp2 then (.error .badCrcEcho, s3)
      else if resp2 ≠ req then (.error .commandMismatch, s3)
      else (.ok (), s3)

/-- C4 (amended): an FC06 exchange whose received 8-byte reply has a valid
CRC but differs from the transmitted request in any byte never succeeds;
when the reply's second byte is not 0x86 the failure is the
command-mismatch error, and byte-for-byte echo equality is the only success
condition; a differing reply whose second byte is 0x86 is instead treated
as an exception frame and fails with a CRC or device-exception error. -/
theorem rtu_write_single_register_echo (s : SerialState)
    (u a v b0 b1 b2 b3 b4 b5 b6 b7 : Nat) (rest : List Nat)
    (hu : 1 ≤ u ∧ u ≤ 247) (hav : a ≤ 0xFFFF ∧ v ≤ 0xFFFF)
    (hp : s.pending = b0 :: b1 :: b2 :: b3 :: b4 :: b5 :: b6 :: b7 :: rest)
    (hcrc : check_crc [b0, b1, b2, b3, b4, b5, b6, b7] = true)
    (hne : [b0, b1, b2, b3, b4, b5, b6, b7] ≠ write_request u a v) :
    isOkResult (rtu_write_single_register s u a v).1 = false
    ∧ (b1 ≠ 0x86 →
        (rtu_write_single_register s u a v).1 = .error .commandMismatch) := by
  by_cases h86 : b1 = 0x86
  · subst h86
    by_cases hcc : check_crc [b0, 0x86, b2, b3, b4] = true
    · have key : (rtu_write_single_register s u a v).1
          = .error (.deviceException b2 (abnormalMessage b2)) := by
        unfold rtu_write_single_register
        rw [if_neg (not_not_intro hu), if_neg (not_not_intro hav), hp]
        simp [hcc]
      exact ⟨by rw [key]; rfl, fun hne86 => absurd rfl hne86⟩
    · have hcc' : check_crc [b0, 0x86, b2, b3, b4] = false :=
        Bool.eq_false_iff.mpr hcc
      have key : (rtu_write_single_register s u a v).1
          = .error .badCrcExceptionReply := by
        unfold rtu_write_single_register
        rw [if_neg (not_not_intro hu), if_neg (not_not_intro hav), hp]
        simp [hcc']
      exact ⟨by rw [key]; rfl, fun hne86 => absurd rfl hne86⟩
  · have key : (rtu_write_single_register s u a v).1
        = .error .commandMismatch := by
      unfold rtu_write_single_register
      rw [if_neg (not_not_intro hu), if_neg (not_not_intro hav), hp]
      simp [h86, hcrc, hne]
    exact ⟨by rw [key]; rfl, fun _ => key⟩

set_option maxRecDepth 8192 in
/-- C4 witness: a CRC-valid echo of a different value (request wrote 0, the
reply echoes 1) fails with the command-mismatch error. -/
theorem rtu_write_single_register_echo_witness :
    (rtu_write_single_register ⟨[], write_request 1 0 1⟩ 1 0 0).1
      = .error .commandMismatch :=
  (rtu_write_single_register_echo ⟨[], write_request 1 0 1⟩ 1 0 0
    1 6 0 0 0 1 72 10 [] (by decide) (by decide) (by decide) (by decide)
    (by decide)).2 (by decide)

set_option maxRecDepth 8192 in
/-- C4 counterexample: an 8-byte reply with valid CRC over all 8 bytes that
differs from the request but has second byte 0x86 fails with the
bad-CRC-on-exception-reply error, not the command-mismatch error the claim
requires. -/
theorem rtu_write_single_register_echo_cex :
    check_crc (append_crc [1, 0x86, 1, 0, 0, 0]) = true
    ∧ (append_crc [1, 0x86, 1, 0, 0, 0]).length = 8
    ∧ append_crc [1, 0x86, 1, 0, 0, 0] ≠ write_request 1 0 0
    ∧ (rtu_write_single_register ⟨[], append_crc [1, 0x86, 1, 0, 0, 0]⟩
        1 0 0).1 = .error .badCrcExceptionReply
    ∧ RtuWriteError.badCrcExceptionReply ≠ RtuWriteError.commandMismatch := by
  decide

theorem decode_regs_length : ∀ l : List Nat, (decode_regs l).length = l.length / 2
  | [] => rfl
  | [_] => by simp [decode_regs]
  | b0 :: b1 :: rest => by
    simp only [decode_regs, List.length_cons, decode_regs_length rest]
    omega

/-- Evaluation of `_rtu_read_registers` once the header has been accepted as
a normal (non-exception) data reply: only the data-phase checks remain. -/
theorem rtu_read_registers_data_eval (s : SerialState) (u fc sa cnt bc : Nat)
    (rest : List Nat)
    (hu : 1 ≤ u ∧ u ≤ 247) (hfc : fc = 0x03 ∨ fc = 0x04)
    (hsc : sa ≤ 0xFFFF ∧ 1 ≤ cnt ∧ cnt ≤ 0x7D)
    (hp : s.pending = u :: fc :: bc :: rest) :
    (rtu_read_registers s u fc sa cnt).1
      = (if (u :: fc :: bc :: rest.take (bc + 2)).length < 3 + bc + 2 then
           .error .truncatedData
         else if ¬ check_crc (u :: fc :: bc :: rest.take (bc + 2)) then
           .error .badCrcData
         else if ((rest.take (bc + 2)).take bc).length % 2 ≠ 0 then
           .error .oddDataLength
         else if (decode_regs ((rest.take (bc + 2)).take bc)).length < cnt then
           .error (.tooFewRegisters
             (decode_regs ((rest.take (bc + 2)).take bc)).length)
         else .ok ((decode_regs ((rest.take (bc + 2)).take bc)).take cnt)) := by
  have hfc80 : ¬ (fc = fc ||| 0x80) := by
    rcases hfc with h | h <;> subst h <;> decide
  unfold rtu_read_registers
  rw [if_neg (not_not_intro hu), if_neg (not_not_intro hfc),
    if_neg (not_not_intro hsc), hp]
  simp [hfc80]
  repeat (first | rfl | split)

/-- C10: a data reply whose claimed byte count bc exceeds 2*count, with the
full bc data bytes plus CRC available, a valid CRC over the whole frame and
an even bc decoding to at least count registers, succeeds and returns
exactly the first count registers: the over-claimed byte count is accepted
and silently truncated, never an error. -/
theorem rtu_read_registers_overclaim (s : SerialState) (u fc sa cnt bc : Nat)
    (rest : List Nat)
    (hu : 1 ≤ u ∧ u ≤ 247) (hfc : fc = 0x03 ∨ fc = 0x04)
    (hsc : sa ≤ 0xFFFF ∧ 1 ≤ cnt ∧ cnt ≤ 0x7D)
    (hp : s.pending = u :: fc :: bc :: rest)
    (hlen : bc + 2 ≤ rest.length)
    (hcrc : check_crc (u :: fc :: bc :: rest.take (bc + 2)) = true)
    (heven : bc % 2 = 0)
    (hover : 2 * cnt < bc) :
    (rtu_read_registers s u fc sa cnt).1
      = .ok ((decode_regs (rest.take bc)).take cnt) := by
  rw [rtu_read_registers_data_eval s u fc sa cnt bc rest hu hfc hsc hp]
  have htake2 : (rest.take (bc + 2)).take bc = rest.take bc := by
    rw [List.take_take, Nat.min_eq_left (by omega)]
  have htail : (rest.take (bc + 2)).length = bc + 2 := by
    rw [List.length_take]
    omega
  have hdata : (rest.take bc).length = bc := by
    rw [List.length_take]
    omega
  have h1 : ¬ ((u :: fc :: bc :: rest.take (bc + 2)).length < 3 + bc + 2) := by
    simp only [List.length_cons, htail]
    omega
  rw [if_neg h1, if_neg (not_not_intro hcrc), htake2]
  have h3 : ¬ ((rest.take bc).length % 2 ≠ 0) := by
    rw [hdata]
    omega
  rw [if_neg h3]
  have h4 : ¬ ((decode_regs (rest.take bc)).length < cnt) := by
    rw [decode_regs_length, hdata]
    omega
  rw [if_neg h4]

set_option maxRecDepth 8192 in
/-- C10 witness: requesting 1 register but receiving a CRC-valid frame
claiming 4 data bytes succeeds with exactly the first register. -/
theorem rtu_read_registers_overclaim_witness :
    (rtu_read_registers ⟨[], append_crc [1, 0x04, 4, 0, 1, 0, 2]⟩
        1 0x04 0 1).1 = .ok [1] := by
  have h := rtu_read_registers_overclaim
    ⟨[], append_crc [1, 0x04, 4, 0, 1, 0, 2]⟩ 1 0x04 0 1 4
    ((append_crc [1, 0x04, 4, 0, 1, 0, 2]).drop 3) (by decide) (by decide)
    (by decide) (by decide) (by decide) (by decide) (by decide) (by decide)
  rw [h]
  decide

/-- The cycle-level counters of the polling loop in `main`
(src/scripts/poll_to_influx.py). -/
structure CycleCounters where
  hard : Nat
  silent : Nat
deriving DecidableEq

/-- The end-of-cycle counter update of the polling loop: on any successful
reading both counters reset to 0; otherwise the all-silent counter always
increments while the hard-error counter increments when a hard error was
detected this cycle and resets to 0 otherwise. -/
def update_counters (any_success hard_error : Bool) (c : CycleCounters) :
    CycleCounters :=
  if any_success then ⟨0, 0⟩
  else ⟨if hard_error then c.hard + 1 else 0, c.silent + 1⟩

/-- One full cycle of counter bookkeeping and reconnect policy of the
polling loop (src/scripts/poll_to_influx.py), assuming an attempted
reconnect succeeds (a failed reconnect raises SystemExit, ending the loop).
Returns whether a reconnect was attempted and the new counters; the soft
branch mirrors the source's ever-had-success and hard-counter guards. -/
def poll_cycle (hard_threshold soft_threshold : Nat)
    (any_success hard_error ever_success : Bool) (c : CycleCounters) :
    Bool × CycleCounters :=
  let c1 := update_counters any_success hard_error c
  if 0 < hard_threshold ∧ hard_threshold ≤ c1.hard then (true, ⟨0, 0⟩)
  else if 0 < soft_threshold ∧ (ever_success || any_success) = true
      ∧ soft_threshold ≤ c1.silent ∧ c1.hard = 0 then (true, ⟨0, 0⟩)
  else (false, c1)

/-- C7: the hard-error counter increments exactly on a zero-success cycle
with a hard error detected and resets to 0 on any success; the all-silent
counter increments exactly on a zero-success cycle and resets to 0 on any
success; whenever the updated hard counter reaches a positive hard
threshold a reconnect is attempted, and after the (successful) reconnect
both counters are 0. -/
theorem poll_cycle_spec (ht st : Nat) (a h e : Bool) (c : CycleCounters) :
    ((update_counters a h c).hard = c.hard + 1 ↔ (a = false ∧ h = true))
    ∧ ((update_counters a h c).silent = c.silent + 1 ↔ a = false)
    ∧ (a = true → update_counters a h c = ⟨0, 0⟩)
    ∧ (0 < ht → ht ≤ (update_counters a h c).hard →
        (poll_cycle ht st a h e c).1 = true
        ∧ (poll_cycle ht st a h e c).2 = ⟨0, 0⟩) := by
  refine ⟨?_, ?_, ?_, ?_⟩
  · cases a <;> cases h <;> simp [update_counters]
  · cases a <;> simp [update_counters]
  · intro ha
    simp [update_counters, ha]
  · intro h1 h2
    simp only [poll_cycle]
    rw [if_pos ⟨h1, h2⟩]
    exact ⟨rfl, rfl⟩

/-- C7 witness: with hard threshold 3, a third consecutive hard-error
zero-success cycle increments the counter to 3 and triggers a reconnect
that leaves both counters at 0. -/
theorem poll_cycle_spec_witness :
    (update_counters false true ⟨2, 5⟩).hard = 3
    ∧ (poll_cycle 3 0 false true false ⟨2, 5⟩).1 = true
    ∧ (poll_cycle 3 0 false true false ⟨2, 5⟩).2 = ⟨0, 0⟩ := by
  have h := poll_cycle_spec 3 0 false true false ⟨2, 5⟩
  exact ⟨by decide, (h.2.2.2 (by decide) (by decide)).1,
    (h.2.2.2 (by decide) (by decide)).2⟩

/-- Outcome of one `client.connect()` attempt inside `reconnect_modbus`
(src/scripts/poll_to_influx.py): success, a False return, or a raised
exception (carrying its message). -/
inductive ConnectOutcome
  | success
  | connectFalse
  | exn (e : String)
deriving DecidableEq

/-- Observable trace of `reconnect_modbus`: the 1-based attempt that
succeeded (none when all attempts failed and SystemExit is raised), the
last connect exception observed, the sleeps performed after failed
attempts, and the port resolved before each attempt. -/
structure ReconnectTrace where
  result : Option Nat
  lastErr : Option String
  sleeps : List ℚ
  ports : List String
deriving DecidableEq

/-- The attempt loop of `reconnect_modbus` (src/scripts/poll_to_influx.py),
at 1-based attempt i with r attempts remaining, carrying last_err: each
attempt re-resolves the port, creates a client and tries to connect; on
failure it sleeps min(base_delay * i, 10.0) seconds and continues. -/
def reconnect_loop (resolve : Nat → String) (connect : Nat → ConnectOutcome)
    (base_delay : ℚ) : Nat → Nat → Option String → ReconnectTrace
  | _, 0, lastErr => ⟨none, lastErr, [], []⟩
  | i, r + 1, lastErr =>
    let port := resolve i
    match connect i with
    | .success => ⟨some i, lastErr, [], [port]⟩
    | .connectFalse =>
      let rest := reconnect_loop resolve connect base_delay (i + 1) r lastErr
      ⟨rest.result, rest.lastErr, min (base_delay * i) 10 :: rest.sleeps,
        port :: rest.ports⟩
    | .exn e =>
      let rest := reconnect_loop resolve connect base_delay (i + 1) r (some e)
      ⟨rest.result, rest.lastErr, min (base_delay * i) 10 :: rest.sleeps,
        port :: rest.ports⟩

/-- Model of `reconnect_modbus(...)` (src/scripts/poll_to_influx.py): attempts
1..attempts; a none result models the final raise of
SystemExit(last error) after exhausting the attempts. -/
def reconnect_modbus (resolve : Nat → String) (connect : Nat → ConnectOutcome)
    (base_delay : ℚ) (attempts : Nat) : ReconnectTrace :=
  reconnect_loop resolve connect base_delay 1 attempts none

/-- The last connect exception observed over a list of attempt indices. -/
def last_exn (connect : Nat → ConnectOutcome) : List Nat → Option String
  | [] => none
  | i :: rest =>
    match last_exn connect rest with
    | some e => some e
    | none =>
      match connect i with
      | .exn e => some e
      | _ => none

theorem reconnect_loop_all_fail (resolve : Nat → String)
    (connect : Nat → ConnectOutcome) (bd : ℚ) :
    ∀ (r i : Nat) (le : Option String),
      (∀ j, i ≤ j → j < i + r → connect j ≠ .success) →
      reconnect_loop resolve connect bd i r le
        = ⟨none,
           (match last_exn connect (List.range' i r) with
            | some e => some e
            | none => le),
           (List.range' i r).map (fun j : Nat => min (bd * (j : ℚ)) 10),
           (List.range' i r).map resolve⟩
  | 0, i, le, _ => by simp [reconnect_loop, List.range', last_exn]
  | r + 1, i, le, hfail => by
    have hne := hfail i (Nat.le_refl i) (by omega)
    have ih := fun le2 => reconnect_loop_all_fail resolve connect bd r (i + 1)
      le2 (fun j hj1 hj2 => hfail j (by omega) (by omega))
    rw [List.range'_succ]
    cases hc : connect i with
    | success => exact absurd hc hne
    | connectFalse =>
      unfold reconnect_loop
      rw [hc]
      simp only [ih le, last_exn, hc]
      cases last_exn connect (List.range' (i + 1) r) <;> simp
    | exn e =>
      unfold reconnect_loop
      rw [hc]
      simp only [ih (some e), last_exn, hc]
      cases last_exn connect (List.range' (i + 1) r) <;> simp

/-- C8: when every one of the configured connect attempts fails,
reconnect_modbus never returns a client (result none models raising
SystemExit carrying the last observed connect error), after each failed
attempt i it sleeps exactly min(base_delay * i, 10) seconds, and the port
is re-resolved on every one of the attempts. -/
theorem reconnect_modbus_all_fail (resolve : Nat → String)
    (connect : Nat → ConnectOutcome) (bd : ℚ) (attempts : Nat)
    (hfail : ∀ j ∈ List.range' 1 attempts, connect j ≠ .success) :
    reconnect_modbus resolve connect bd attempts
      = ⟨none,
         last_exn connect (List.range' 1 attempts),
         (List.range' 1 attempts).map (fun j : Nat => min (bd * (j : ℚ)) 10),
         (List.range' 1 attempts).map resolve⟩ := by
  unfold reconnect_modbus
  rw [reconnect_loop_all_fail resolve connect bd attempts 1 none
    (fun j hj1 hj2 => hfail j (List.mem_range'_1.mpr ⟨hj1, hj2⟩))]
  cases last_exn connect (List.range' 1 attempts) <;> simp

/-- C8 witness: two attempts, the first raising "boom" and the second
returning False, end with no client, last error "boom", sleeps
[min(1*1,10), min(1*2,10)] = [1, 2] and the port re-resolved twice. -/
theorem reconnect_modbus_all_fail_witness :
    reconnect_modbus (fun _ => "p")
        (fun i => if i = 1 then .exn "boom" else .connectFalse) 1 2
      = ⟨none, some "boom", [1, 2], ["p", "p"]⟩ := by
  rw [reconnect_modbus_all_fail (fun _ => "p")
    (fun i => if i = 1 then .exn "boom" else .connectFalse) 1 2 (by decide)]
  norm_num [List.range', last_exn]

/-- Error outcomes of `calibrate` (src/util/pzem.py), one constructor per
raise site, in source order. -/
inductive CalibrateError
  | noResponse
  | badOkReply
  | unexpectedOkReply
  | badErrReply (slave : Nat)
  | calibrationFailed (slave code : Nat) (msg : String)
  | unexpectedHeader
deriving DecidableEq

/-- Stream state for `calibrate`: the pyserial per-stream read timeout
(None models pyserial's blocking mode) together with the byte stream. -/
structure CalSerialState where
  timeout : Option ℚ
  written : List Nat
  pending : List Nat
deriving DecidableEq

/-- Model of `calibrate` (src/util/pzem.py) over the serial model.  The source sets
ser.timeout = max(response_timeout_s, old_timeout or 0) and wraps the
exchange in try/finally, restoring the old timeout only when it was not
None; the two inner try/except-pass guards around the timeout assignments
are modelled as assignments that always succeed. -/
def calibrate (s : CalSerialState) (response_timeout_s : ℚ) :
    Except CalibrateError Unit × CalSerialState :=
  let old_timeout := s.timeout
  let s0 : CalSerialState :=
    { s with timeout := some (max response_timeout_s (old_timeout.getD 0)) }
  let req := append_crc [0xF8, 0x41, 0x37, 0x21]
  let s1 : CalSerialState := { s0 with written := s0.written ++ req }
  let hdr := s1.pending.take 2
  let s2 : CalSerialState := { s1 with pending := s1.pending.drop 2 }
  let body : Except CalibrateError Unit × CalSerialState :=
    if hdr.length < 2 then (.error .noResponse, s2)
    else if hdr.getD 0 0 = 0xF8 ∧ hdr.getD 1 0 = 0x41 then
      let rest := s2.pending.take 4
      let s3 : CalSerialState := { s2 with pending := s2.pending.drop 4 }
      let frame := hdr ++ rest
      if frame.length ≠ 6 ∨ ¬ (check_crc frame) then (.error .badOkReply, s3)
      else if frame ≠ req then (.error .unexpectedOkReply, s3)
      else (.ok (), s3)
    else if hdr.getD 1 0 = 0xC1 then
      let rest := s2.pending.take 3
      let s3 : CalSerialState := { s2 with pending := s2.pending.drop 3 }
      let frame := hdr ++ rest
      if frame.length ≠ 5 ∨ ¬ (check_crc frame) then
        (.error (.badErrReply (hdr.getD 0 0)), s3)
      else
        (.error (.calibrationFailed (hdr.getD 0 0) (frame.getD 2 0)
          (abnormalMessage (frame.getD 2 0))), s3)
    else (.error .unexpectedHeader, s2)
  match old_timeout with
  | some t => (body.1, { body.2 with timeout := some t })
  | none => body

/-- C9 (amended): whenever the stream's read timeout held a value (was not
None) before the call, calibrate restores exactly that value on every path
and for every reply, success, error frame, garbage or silence alike; a
None timeout is instead left at the overridden deadline. -/
theorem calibrate_restores_timeout (s : CalSerialState) (rt t : ℚ)
    (h : s.timeout = some t) :
    (calibrate s rt).2.timeout = some t := by
  unfold calibrate
  rw [h]

/-- C9 witness: a stream with timeout 1 s that stays silent still has
timeout 1 s after the calibrate call. -/
theorem calibrate_restores_timeout_witness :
    (calibrate ⟨some 1, [], []⟩ 6).2.timeout = some 1 :=
  calibrate_restores_timeout ⟨some 1, [], []⟩ 6 1 rfl

/-- C9 counterexample: when the stream's timeout is None (pyserial blocking
mode) the override is not restored: after a silent calibrate call the
timeout is the 6-second deadline, no longer None. -/
theorem calibrate_restores_timeout_cex :
    (calibrate ⟨none, [], []⟩ 6).2.timeout = some 6
    ∧ some (6 : ℚ) ≠ (none : Option ℚ) := by
  constructor
  · have hmax : (max (6 : ℚ) 0) = 6 := max_eq_left (by norm_num)
    simp [calibrate, hmax]
  · simp

end DCMon
